import Mathlib

/-!
Shallow embedding of src/main.py (Sat Norte de Minas Gerais), a FastAPI
service that periodically downloads a satellite image of the Norte de Minas
Gerais bounding box from NASA GIBS into data/satellite_image.jpg and serves
the file at GET /api/image.jpg.

The only mutable state the claims depend on is the contents of the file
data/satellite_image.jpg, modelled as an optional byte list (none when the
file does not exist). Byte strings are lists of naturals. The
nondeterministic environment of one fetch attempt (raised exceptions, the
HTTP status and body of the provider response) is passed in explicitly as a
FetchInput value; everything else is a direct translation of the Python
functions.
-/

namespace SNMG

/-- Contents of data/satellite_image.jpg: none when the file does not exist,
some bs when the file holds the byte string bs. -/
abbrev FS := Option (List Nat)

/-- Western longitude bound, the literal -46.5 from main.py line 21,
written as the exact rational -465/10. -/
def LON_MIN : Rat := Rat.divInt (-465) 10

/-- Southern latitude bound, the literal -17.5 from main.py line 21,
written as the exact rational -175/10. -/
def LAT_MIN : Rat := Rat.divInt (-175) 10

/-- Eastern longitude bound, the literal -42.0 from main.py line 22,
written as the exact rational -420/10. -/
def LON_MAX : Rat := Rat.divInt (-420) 10

/-- Northern latitude bound, the literal -14.0 from main.py line 22,
written as the exact rational -140/10. -/
def LAT_MAX : Rat := Rat.divInt (-140) 10

/-- Text that a Python f-string interpolates for a float whose value times
ten is an integer, as all four bounding-box constants are: sign, integer
part, a dot and the single tenths digit (CPython prints the shortest decimal
that round-trips, which for such values is exactly this form, with a
trailing .0 for integral values). -/
def pyFloatStr (q : Rat) : String :=
  let t : Nat := q.num.natAbs * 10 / q.den
  let sign := if q.num < 0 then "-" else ""
  sign ++ toString (t / 10) ++ "." ++ toString (t % 10)

/-- Two-digit zero-padded decimal field, modelling the strftime fields for
month and day on the ranges datetime produces. -/
def two_digit (n : Nat) : String :=
  String.mk [Nat.digitChar (n / 10 % 10), Nat.digitChar (n % 10)]

/-- Four-digit zero-padded decimal field, modelling the strftime year field
on the range datetime produces (years up to 9999). -/
def four_digit (n : Nat) : String :=
  String.mk [Nat.digitChar (n / 1000 % 10), Nat.digitChar (n / 100 % 10),
             Nat.digitChar (n / 10 % 10), Nat.digitChar (n % 10)]

/-- Models datetime.utcnow().strftime of the year-month-day pattern used at
main.py line 32: the current UTC calendar date (y, m, d) rendered as a
zero-padded ISO date. -/
def date_str (y m d : Nat) : String :=
  four_digit y ++ "-" ++ two_digit m ++ "-" ++ two_digit d

/-- The date-independent head of the request URL built at main.py lines 35
to 41, assembled from the same literal fragments and the four location
constants interpolated the way the f-string renders them. -/
def gibs_url_head : String :=
  "https://gibs.earthdata.nasa.gov/wms/epsg4326/best/wms.cgi?SERVICE=WMS"
    ++ "&REQUEST=GetMap&VERSION=1.3.0&LAYERS=VIIRS_SNPP_CorrectedReflectance_TrueColor"
    ++ "&STYLES=&FORMAT=image/jpeg&TRANSPARENT=FALSE&HEIGHT=800&WIDTH=800"
    ++ "&CRS=EPSG:4326&BBOX=" ++ pyFloatStr LON_MIN ++ "," ++ pyFloatStr LAT_MIN
    ++ "," ++ pyFloatStr LON_MAX ++ "," ++ pyFloatStr LAT_MAX
    ++ "&TIME="

/-- The request URL built at main.py lines 35 to 41: the head followed by
the formatted current UTC date. -/
def gibs_url (y m d : Nat) : String := gibs_url_head ++ date_str y m d

/-- Environment of one run of get_gibs_image: a possible exception raised
while building the date and URL, a possible transport exception raised by
requests.get, the HTTP status and raw body of the provider response when the
request returns, and a possible exception raised while writing the file. -/
structure FetchInput where
  urlExc : Option String
  netExc : Option String
  status : Nat
  content : List Nat
  writeExc : Option String
deriving DecidableEq

/-- Outcome of a Python call: a normal boolean return or a raised
exception. -/
inductive PyResult where
  | returns (b : Bool)
  | raises (e : String)
deriving DecidableEq

/-- Opening the image file with mode wb truncates it to empty before any
content is written (main.py line 47). -/
def truncate_step (_fs : FS) : FS := some []

/-- The f.write call at main.py line 48 installs the full response body. -/
def write_step (content : List Nat) (_fs : FS) : FS := some content

/-- The file states a concurrent reader can observe around the replace at
main.py lines 47 and 48: before the open, after the truncating open, and
after the write. -/
def replace_states (content : List Nat) (fs : FS) : List FS :=
  [fs, truncate_step fs, write_step content (truncate_step fs)]

/-- Log line printed at main.py line 29. -/
def startLog : String := "🚀 Iniciando o download da imagem da NASA GIBS..."

/-- Log line printed at main.py line 49. -/
def okLog : String := "✅ Download da imagem do satélite concluído."

/-- Log line printed at main.py line 52 for a non-200 provider status. -/
def statusLog (status : Nat) : String :=
  "❌ Erro ao baixar a imagem da NASA GIBS: " ++ toString status

/-- Log line printed at main.py line 56 for a caught exception. -/
def excLog (e : String) : String := "❌ Erro na requisição ao GIBS: " ++ e

/-- Result of a fetch attempt: the Python return or raise, the resulting
file contents, and the log lines printed. -/
structure FetchRes where
  result : PyResult
  fs : FS
  log : List String
deriving DecidableEq

/-- Body of the try block of get_gibs_image (main.py lines 31 to 53): build
the date and URL, perform the request, and on a 200 status open the file
(truncating it) and write the body, returning True; on any other status
return False without touching the file. Exceptions propagate out of the
body as a raises result. -/
def fetch_body (inp : FetchInput) (fs : FS) : FetchRes :=
  match inp.urlExc with
  | some e => ⟨.raises e, fs, []⟩
  | none =>
    match inp.netExc with
    | some e => ⟨.raises e, fs, []⟩
    | none =>
      if inp.status = 200 then
        match inp.writeExc with
        | some e => ⟨.raises e, truncate_step fs, []⟩
        | none => ⟨.returns true, write_step inp.content (truncate_step fs), [okLog]⟩
      else
        ⟨.returns false, fs, [statusLog inp.status]⟩

/-- get_gibs_image, main.py lines 25 to 57: prints the start line, runs the
try body, and the catch-all except clause turns any raised exception into a
False return with a diagnostic log line. -/
def get_gibs_image (inp : FetchInput) (fs : FS) : FetchRes :=
  let r := fetch_body inp fs
  match r.result with
  | .returns b => ⟨.returns b, r.fs, startLog :: r.log⟩
  | .raises e => ⟨.returns false, r.fs, startLog :: (r.log ++ [excLog e])⟩

/-- Response produced by an endpoint: a raw-bytes Response with a media type
(main.py line 90) or a one-field JSON object (main.py lines 79 and 92).
FastAPI serves both with HTTP status 200 by default. -/
inductive ApiResponse where
  | bytesResp (content : List Nat) (mediaType : String) (status : Nat)
  | jsonMessage (message : String) (status : Nat)
  | jsonError (error : String) (status : Nat)
deriving DecidableEq

/-- The existence check at main.py line 87. -/
def image_file_exists (fs : FS) : Bool := fs.isSome

/-- get_image, main.py lines 81 to 92: if data/satellite_image.jpg exists,
read it and return its bytes as image/jpeg with the FastAPI default status
200; otherwise return the JSON error payload, which FastAPI also serves
with status 200. -/
def get_image (fs : FS) : ApiResponse :=
  if image_file_exists fs then
    ApiResponse.bytesResp (fs.getD []) "image/jpeg" 200
  else
    ApiResponse.jsonError "Imagem não encontrada." 200

/-- The GET /api endpoint, main.py lines 77 to 79. -/
def api_root : ApiResponse :=
  ApiResponse.jsonMessage "Bem-vindo ao Sat Norte de Minas Gerais 🚀" 200

/-- The two JSON or bytes endpoints of the API. -/
inductive Request where
  | apiRoot
  | apiImage
deriving DecidableEq

/-- Dispatch of one HTTP request. The read endpoints have no side effect on
the image file. -/
def handle : Request → FS → ApiResponse × FS
  | .apiRoot, fs => (api_root, fs)
  | .apiImage, fs => (get_image fs, fs)

/-- A run of n consecutive GET /api/image.jpg requests with no fetch attempt
in between: the list of responses and the final file state. -/
def readSequence (fs : FS) : Nat → List ApiResponse × FS
  | 0 => ([], fs)
  | n + 1 =>
    let p := readSequence fs n
    let q := handle .apiImage p.2
    (p.1 ++ [q.1], q.2)

/-- Process start, main.py lines 14 to 17 and 68 to 74: the data directory
is created with exist_ok set, which keeps any existing files, and the
startup event only spawns the refresh thread. No file is deleted, loaded or
cached at startup, so the file state at start is exactly what is on disk. -/
def startup_fs (disk : FS) : FS := disk

/-- Observable events of the refresh loop thread. -/
inductive Event where
  | fetchDone (n : Nat) (r : PyResult)
  | sleepSecs (s : Nat)
  | threadCrash (n : Nat) (e : String)
deriving DecidableEq

/-- One iteration of the while-True loop of atualizar_periodicamente
(main.py lines 60 to 66), run as iteration n: if the thread is still alive,
call get_gibs_image and then sleep 4 * 3600 seconds; an exception escaping
get_gibs_image would end the thread, after which nothing further happens. -/
def loopStep (inp : FetchInput) (st : List Event × FS × Bool) (n : Nat) :
    List Event × FS × Bool :=
  if st.2.2 then
    let r := get_gibs_image inp st.2.1
    match r.result with
    | .returns b =>
      (st.1 ++ [Event.fetchDone n (PyResult.returns b), Event.sleepSecs (4 * 3600)],
       r.fs, true)
    | .raises e => (st.1 ++ [Event.threadCrash n e], r.fs, false)
  else st

/-- Trace of the refresh loop after n iterations, starting from file state
fs0, with iteration k seeing environment inputs k: the events so far, the
file state, and whether the thread is still alive. -/
def loopTrace (inputs : Nat → FetchInput) (fs0 : FS) : Nat → List Event × FS × Bool
  | 0 => ([], fs0, true)
  | n + 1 => loopStep (inputs n) (loopTrace inputs fs0 n) n

/-- An environment in which the provider answers every attempt with a 500
status: every fetch attempt fails. -/
def failInputs : Nat → FetchInput := fun _ => ⟨none, none, 500, [], none⟩

/-- On a clean run with a 200 status, get_gibs_image returns True, installs
the body as the file contents, and logs the start and success lines. -/
theorem get_gibs_image_success (inp : FetchInput) (fs : FS)
    (hu : inp.urlExc = none) (hn : inp.netExc = none) (hw : inp.writeExc = none)
    (hs : inp.status = 200) :
    get_gibs_image inp fs =
      ⟨PyResult.returns true, some inp.content, [startLog, okLog]⟩ := by
  simp [get_gibs_image, fetch_body, hu, hn, hw, hs, write_step, okLog]

/-- An exception while building the URL is caught: False, file untouched. -/
theorem get_gibs_image_urlExc (inp : FetchInput) (fs : FS) (e : String)
    (hu : inp.urlExc = some e) :
    get_gibs_image inp fs = ⟨PyResult.returns false, fs, [startLog, excLog e]⟩ := by
  simp [get_gibs_image, fetch_body, hu]

/-- A transport exception from requests.get is caught: False, file
untouched. -/
theorem get_gibs_image_netExc (inp : FetchInput) (fs : FS) (e : String)
    (hu : inp.urlExc = none) (hn : inp.netExc = some e) :
    get_gibs_image inp fs = ⟨PyResult.returns false, fs, [startLog, excLog e]⟩ := by
  simp [get_gibs_image, fetch_body, hu, hn]

/-- A non-200 status: False, file untouched, status logged. -/
theorem get_gibs_image_badStatus (inp : FetchInput) (fs : FS)
    (hu : inp.urlExc = none) (hn : inp.netExc = none) (hs : inp.status ≠ 200) :
    get_gibs_image inp fs =
      ⟨PyResult.returns false, fs, [startLog, statusLog inp.status]⟩ := by
  simp [get_gibs_image, fetch_body, hu, hn, hs]

/-- An exception during the file write is caught, but only after the
truncating open has already emptied the file. -/
theorem get_gibs_image_writeExc (inp : FetchInput) (fs : FS) (e : String)
    (hu : inp.urlExc = none) (hn : inp.netExc = none) (hs : inp.status = 200)
    (hw : inp.writeExc = some e) :
    get_gibs_image inp fs =
      ⟨PyResult.returns false, some [], [startLog, excLog e]⟩ := by
  simp [get_gibs_image, fetch_body, hu, hn, hs, hw, truncate_step]

/-- The catch-all except clause makes get_gibs_image return a boolean on
every input. -/
theorem get_gibs_image_total (inp : FetchInput) (fs : FS) :
    ∃ b, (get_gibs_image inp fs).result = PyResult.returns b := by
  rcases hu : inp.urlExc with _ | e
  · rcases hn : inp.netExc with _ | e
    · by_cases hs : inp.status = 200
      · rcases hw : inp.writeExc with _ | e
        · exact ⟨true, by rw [get_gibs_image_success inp fs hu hn hw hs]⟩
        · exact ⟨false, by rw [get_gibs_image_writeExc inp fs e hu hn hs hw]⟩
      · exact ⟨false, by rw [get_gibs_image_badStatus inp fs hu hn hs]⟩
    · exact ⟨false, by rw [get_gibs_image_netExc inp fs e hu hn]⟩
  · exact ⟨false, by rw [get_gibs_image_urlExc inp fs e hu]⟩

/-- A live loop iteration always completes: a fetch event followed by a
sleep of exactly 14400 seconds, and the thread stays alive. -/
theorem loopStep_alive (inp : FetchInput) (st : List Event × FS × Bool) (n : Nat)
    (h : st.2.2 = true) :
    ∃ b, loopStep inp st n =
      (st.1 ++ [Event.fetchDone n (PyResult.returns b), Event.sleepSecs 14400],
       (get_gibs_image inp st.2.1).fs, true) := by
  obtain ⟨b, hb⟩ := get_gibs_image_total inp st.2.1
  exact ⟨b, by simp [loopStep, h, hb]⟩

/-- C1 fails on the code: the replace is the non-atomic pair of an open in
mode wb, which truncates the file, and the content write. A reader between
the two observes the empty file, which is neither the pre-replace bytes
nor the post-replace bytes. Concretely, with pre-replace contents
[255, 216, 255, 224] being replaced by [255, 216, 0, 1], the truncated
state is reachable during the replace and a read there differs from both a
read of the pre state and a read of the post state. -/
theorem c1_counterexample :
    truncate_step (some [255, 216, 255, 224]) ∈
        replace_states [255, 216, 0, 1] (some [255, 216, 255, 224]) ∧
      get_image (truncate_step (some [255, 216, 255, 224])) ≠
        get_image (some [255, 216, 255, 224]) ∧
      get_image (truncate_step (some [255, 216, 255, 224])) ≠
        get_image (write_step [255, 216, 0, 1]
          (truncate_step (some [255, 216, 255, 224]))) := by
  decide

/-- C1 (amended): a reader concurrent with a replace observes the complete
pre-replace value, the complete post-replace value, or the empty file left
by the truncating open; the truncated empty state is the one torn value and
it is observable, so full atomicity does not hold. -/
theorem c1_read_during_replace (content : List Nat) (pre s : FS)
    (hs : s ∈ replace_states content pre) :
    get_image s = get_image pre ∨ get_image s = get_image (some content) ∨
      s = some [] := by
  simp only [replace_states, List.mem_cons, List.not_mem_nil, or_false] at hs
  rcases hs with h | h | h
  · exact Or.inl (by rw [h])
  · exact Or.inr (Or.inr (by rw [h]; rfl))
  · exact Or.inr (Or.inl (by rw [h]; rfl))

/-- C1 witness: the amended statement applied to a state drawn from the
replace states of a concrete replace. -/
theorem c1_read_during_replace_witness :
    get_image (some [7]) = get_image (some [7]) ∨
      get_image (some [7]) = get_image (some [1, 2]) ∨ (some [7] : FS) = some [] :=
  c1_read_during_replace [1, 2] (some [7]) (some [7]) (by decide)

/-- C2: a fetch attempt that fails with a non-200 status or with a raised
transport or URL-construction error leaves the image file exactly as it
was, so the next read returns the same value as before the attempt. -/
theorem c2_failure_leaves_store (inp : FetchInput) (fs : FS)
    (hfail : inp.urlExc ≠ none ∨ inp.netExc ≠ none ∨ inp.status ≠ 200) :
    (get_gibs_image inp fs).fs = fs ∧
      get_image (get_gibs_image inp fs).fs = get_image fs := by
  have hfs : (get_gibs_image inp fs).fs = fs := by
    rcases hu : inp.urlExc with _ | e
    · rcases hn : inp.netExc with _ | e
      · have hs : inp.status ≠ 200 := by
          rcases hfail with h | h | h
          · exact absurd hu h
          · exact absurd hn h
          · exact h
        rw [get_gibs_image_badStatus inp fs hu hn hs]
      · rw [get_gibs_image_netExc inp fs e hu hn]
    · rw [get_gibs_image_urlExc inp fs e hu]
  exact ⟨hfs, by rw [hfs]⟩

/-- C2 witness: a concrete transport failure with the file holding [5]
leaves it holding [5]. -/
theorem c2_failure_leaves_store_witness :
    (get_gibs_image ⟨none, some "timeout", 200, [9], none⟩ (some [5])).fs = some [5] ∧
      get_image (get_gibs_image ⟨none, some "timeout", 200, [9], none⟩ (some [5])).fs =
        get_image (some [5]) :=
  c2_failure_leaves_store ⟨none, some "timeout", 200, [9], none⟩ (some [5])
    (Or.inr (Or.inl (by decide)))

/-- C3 fails on the code: nothing at process start clears or bypasses the
file, and get_image answers from the file on disk, so with an image file
from a prior run on disk a read before any successful fetch of this process
returns that file, not the not-available payload. -/
theorem c3_counterexample :
    startup_fs (some [255, 216]) = some [255, 216] ∧
      get_image (startup_fs (some [255, 216])) =
        ApiResponse.bytesResp [255, 216] "image/jpeg" 200 ∧
      get_image (startup_fs (some [255, 216])) ≠
        ApiResponse.jsonError "Imagem não encontrada." 200 := by
  refine ⟨rfl, rfl, ?_⟩
  decide

/-- C3 (amended): reads are answered from the file on disk, which is the
source of truth; at process start, before the first successful fetch, a
read returns the structured not-available response exactly when no image
file exists on disk, and otherwise serves the prior-run file bytes. -/
theorem c3_read_at_start (disk : FS) :
    get_image (startup_fs disk) =
        ApiResponse.jsonError "Imagem não encontrada." 200 ↔
      disk = none := by
  cases disk <;> simp [startup_fs, get_image, image_file_exists]

/-- C3 witness: with nothing on disk, the read at start is the
not-available payload. -/
theorem c3_read_at_start_witness :
    get_image (startup_fs none) = ApiResponse.jsonError "Imagem não encontrada." 200 :=
  (c3_read_at_start none).mpr rfl

/-- C4: when no exception is raised, the fetch returns True exactly for a
200 status and then the file carries the raw response body; a non-200
status yields False with the status code logged; a raised transport or
URL-construction error yields False with the error description logged. -/
theorem c4_fetch_outcome (inp : FetchInput) (fs : FS) :
    (inp.urlExc = none → inp.netExc = none → inp.writeExc = none →
      (((get_gibs_image inp fs).result = PyResult.returns true ↔ inp.status = 200) ∧
        (inp.status = 200 → (get_gibs_image inp fs).fs = some inp.content))) ∧
      (inp.urlExc = none → inp.netExc = none → inp.status ≠ 200 →
        ((get_gibs_image inp fs).result = PyResult.returns false ∧
          statusLog inp.status ∈ (get_gibs_image inp fs).log)) ∧
      (∀ e, inp.urlExc = none → inp.netExc = some e →
        ((get_gibs_image inp fs).result = PyResult.returns false ∧
          excLog e ∈ (get_gibs_image inp fs).log)) ∧
      (∀ e, inp.urlExc = some e →
        ((get_gibs_image inp fs).result = PyResult.returns false ∧
          excLog e ∈ (get_gibs_image inp fs).log)) := by
  refine ⟨?_, ?_, ?_, ?_⟩
  · intro hu hn hw
    by_cases hs : inp.status = 200
    · rw [get_gibs_image_success inp fs hu hn hw hs]
      exact ⟨by simp [hs], fun _ => rfl⟩
    · rw [get_gibs_image_badStatus inp fs hu hn hs]
      exact ⟨by simp [hs], fun h => absurd h hs⟩
  · intro hu hn hs
    rw [get_gibs_image_badStatus inp fs hu hn hs]
    exact ⟨rfl, by simp⟩
  · intro e hu hn
    rw [get_gibs_image_netExc inp fs e hu hn]
    exact ⟨rfl, by simp⟩
  · intro e hu
    rw [get_gibs_image_urlExc inp fs e hu]
    exact ⟨rfl, by simp⟩

/-- C4 witness: a concrete 200 response is a success. -/
theorem c4_fetch_outcome_witness :
    (get_gibs_image ⟨none, none, 200, [1, 2], none⟩ none).result = PyResult.returns true :=
  (((c4_fetch_outcome ⟨none, none, 200, [1, 2], none⟩ none).1 rfl rfl rfl).1).mpr rfl

/-- C5: after a fetch attempt that returns True having fetched body B, the
file holds exactly B and the next read returns B byte for byte, with media
type image/jpeg and status 200. -/
theorem c5_read_after_success (inp : FetchInput) (fs : FS)
    (h : (get_gibs_image inp fs).result = PyResult.returns true) :
    get_image (get_gibs_image inp fs).fs =
        ApiResponse.bytesResp inp.content "image/jpeg" 200 ∧
      (get_gibs_image inp fs).fs = some inp.content := by
  rcases hu : inp.urlExc with _ | e
  · rcases hn : inp.netExc with _ | e
    · by_cases hs : inp.status = 200
      · rcases hw : inp.writeExc with _ | e
        · rw [get_gibs_image_success inp fs hu hn hw hs]
          exact ⟨rfl, rfl⟩
        · rw [get_gibs_image_writeExc inp fs e hu hn hs hw] at h
          simp at h
      · rw [get_gibs_image_badStatus inp fs hu hn hs] at h
        simp at h
    · rw [get_gibs_image_netExc inp fs e hu hn] at h
      simp at h
  · rw [get_gibs_image_urlExc inp fs e hu] at h
    simp at h

/-- C5 witness: the spec scenario, a success with a JPEG header byte
string. -/
theorem c5_read_after_success_witness :
    get_image (get_gibs_image ⟨none, none, 200, [255, 216, 255, 224], none⟩ none).fs =
        ApiResponse.bytesResp [255, 216, 255, 224] "image/jpeg" 200 ∧
      (get_gibs_image ⟨none, none, 200, [255, 216, 255, 224], none⟩ none).fs =
        some [255, 216, 255, 224] :=
  c5_read_after_success ⟨none, none, 200, [255, 216, 255, 224], none⟩ none (by decide)

/-- C6: for every environment, including one where every attempt fails, the
refresh loop is still alive after any number of iterations, every iteration
contributes exactly one fetch event and one sleep event, and each attempt k
sits at trace position 2 k followed immediately by a sleep of exactly 14400
seconds: the first attempt happens before any sleep, no failure terminates
the loop, and the interval is never shortened. -/
theorem c6_refresh_loop (inputs : Nat → FetchInput) (fs0 : FS) (n : Nat) :
    (loopTrace inputs fs0 n).2.2 = true ∧
      (loopTrace inputs fs0 n).1.length = 2 * n ∧
      (∀ k, k < n → ∃ b l1 l2,
        (loopTrace inputs fs0 n).1 =
            l1 ++ Event.fetchDone k (PyResult.returns b) ::
              Event.sleepSecs 14400 :: l2 ∧
          l1.length = 2 * k) := by
  induction n with
  | zero => exact ⟨rfl, rfl, fun k hk => absurd hk (Nat.not_lt_zero k)⟩
  | succ n ih =>
    obtain ⟨halive, hlen, hdecomp⟩ := ih
    obtain ⟨b, hstep⟩ := loopStep_alive (inputs n) (loopTrace inputs fs0 n) n halive
    have hTrace : loopTrace inputs fs0 (n + 1) =
        loopStep (inputs n) (loopTrace inputs fs0 n) n := rfl
    rw [hTrace, hstep]
    refine ⟨rfl, ?_, ?_⟩
    · simp only [List.length_append, List.length_cons, List.length_nil, hlen]
      omega
    · intro k hk
      rcases Nat.lt_succ_iff_lt_or_eq.mp hk with hk2 | hk2
      · obtain ⟨b2, l1, l2, heq, hl1⟩ := hdecomp k hk2
        refine ⟨b2, l1,
          l2 ++ [Event.fetchDone n (PyResult.returns b), Event.sleepSecs 14400],
          ?_, hl1⟩
        rw [heq]
        simp
      · subst hk2
        exact ⟨b, (loopTrace inputs fs0 k).1, [], by simp, hlen⟩

/-- C6 witness: three iterations of an always-failing environment leave the
loop alive with six trace events. -/
theorem c6_refresh_loop_witness :
    (loopTrace failInputs none 3).2.2 = true ∧
      (loopTrace failInputs none 3).1.length = 6 := by
  have h := c6_refresh_loop failInputs none 3
  exact ⟨h.1, by rw [h.2.1]⟩

/-- C7: a read of GET /api/image.jpg while no image file exists returns the
structured JSON error payload, and that response carries HTTP status 200. -/
theorem c7_absent_read :
    get_image none = ApiResponse.jsonError "Imagem não encontrada." 200 := rfl

set_option maxRecDepth 10000 in
/-- C8: on the date range datetime produces, the fetch URL is exactly the
GIBS WMS URL requesting FORMAT image/jpeg, HEIGHT 800 and WIDTH 800, the
bounding box -46.5,-17.5,-42.0,-14.0 in west,south,east,north order, and the
current UTC date as the TIME selector, rendered as a ten-character
zero-padded YYYY-MM-DD string with dashes at positions 4 and 7 and digits
everywhere else. -/
theorem c8_url_parameters (y m d : Nat)
    (hy1 : 1000 ≤ y) (hy2 : y ≤ 9999) (hm1 : 1 ≤ m) (hm2 : m ≤ 12)
    (hd1 : 1 ≤ d) (hd2 : d ≤ 31) :
    gibs_url y m d =
        "https://gibs.earthdata.nasa.gov/wms/epsg4326/best/wms.cgi?SERVICE=WMS&REQUEST=GetMap&VERSION=1.3.0&LAYERS=VIIRS_SNPP_CorrectedReflectance_TrueColor&STYLES=&FORMAT=image/jpeg&TRANSPARENT=FALSE&HEIGHT=800&WIDTH=800&CRS=EPSG:4326&BBOX=-46.5,-17.5,-42.0,-14.0&TIME="
          ++ date_str y m d ∧
      (date_str y m d).length = 10 ∧
      (date_str y m d).toList.getD 4 ' ' = '-' ∧
      (date_str y m d).toList.getD 7 ' ' = '-' ∧
      ∀ c ∈ (date_str y m d).toList, c = '-' ∨ c.isDigit = true := by
  refine ⟨?_, rfl, rfl, rfl, ?_⟩
  · have h : gibs_url_head =
        "https://gibs.earthdata.nasa.gov/wms/epsg4326/best/wms.cgi?SERVICE=WMS&REQUEST=GetMap&VERSION=1.3.0&LAYERS=VIIRS_SNPP_CorrectedReflectance_TrueColor&STYLES=&FORMAT=image/jpeg&TRANSPARENT=FALSE&HEIGHT=800&WIDTH=800&CRS=EPSG:4326&BBOX=-46.5,-17.5,-42.0,-14.0&TIME=" := by
      decide
    rw [gibs_url, h]
  · intro c hc
    have hdig : ∀ n < 10, (Nat.digitChar n).isDigit = true := by decide
    have hlist : (date_str y m d).toList =
        [Nat.digitChar (y / 1000 % 10), Nat.digitChar (y / 100 % 10),
         Nat.digitChar (y / 10 % 10), Nat.digitChar (y % 10), '-',
         Nat.digitChar (m / 10 % 10), Nat.digitChar (m % 10), '-',
         Nat.digitChar (d / 10 % 10), Nat.digitChar (d % 10)] := rfl
    rw [hlist] at hc
    simp only [List.mem_cons, List.not_mem_nil, or_false] at hc
    rcases hc with h | h | h | h | h | h | h | h | h | h
    all_goals first
      | exact Or.inl h
      | exact Or.inr (by rw [h]; exact hdig _ (Nat.mod_lt _ (by norm_num)))

/-- C8 witness: the URL for 2026-03-05. -/
theorem c8_url_parameters_witness :
    gibs_url 2026 3 5 =
      "https://gibs.earthdata.nasa.gov/wms/epsg4326/best/wms.cgi?SERVICE=WMS&REQUEST=GetMap&VERSION=1.3.0&LAYERS=VIIRS_SNPP_CorrectedReflectance_TrueColor&STYLES=&FORMAT=image/jpeg&TRANSPARENT=FALSE&HEIGHT=800&WIDTH=800&CRS=EPSG:4326&BBOX=-46.5,-17.5,-42.0,-14.0&TIME="
        ++ date_str 2026 3 5 :=
  (c8_url_parameters 2026 3 5 (by norm_num) (by norm_num) (by norm_num)
    (by norm_num) (by norm_num) (by norm_num)).1

/-- C9: a run of n GET /api/image.jpg requests with no intervening fetch
returns the same response every time and leaves the file state unchanged. -/
theorem c9_reads_idempotent (fs : FS) (n : Nat) :
    readSequence fs n = (List.replicate n (get_image fs), fs) := by
  induction n with
  | zero => rfl
  | succ n ih =>
    have hstep : readSequence fs (n + 1) =
        ((readSequence fs n).1 ++ [(handle .apiImage (readSequence fs n).2).1],
         (handle .apiImage (readSequence fs n).2).2) := rfl
    rw [hstep, ih]
    simp [handle, List.replicate_succ']

/-- C10: get_gibs_image never propagates an exception: on every input,
including ones that raise during URL construction, the network request or
the file write, it returns a boolean, and it returns True exactly on an
exception-free run with a 200 status. -/
theorem c10_no_exception_escape (inp : FetchInput) (fs : FS) :
    (∃ b, (get_gibs_image inp fs).result = PyResult.returns b) ∧
      (∀ e, (get_gibs_image inp fs).result ≠ PyResult.raises e) ∧
      ((get_gibs_image inp fs).result = PyResult.returns true ↔
        inp.urlExc = none ∧ inp.netExc = none ∧ inp.status = 200 ∧
          inp.writeExc = none) := by
  refine ⟨get_gibs_image_total inp fs, ?_, ?_, ?_⟩
  · intro e h
    obtain ⟨b, hb⟩ := get_gibs_image_total inp fs
    rw [h] at hb
    exact PyResult.noConfusion hb
  · intro h
    rcases hu : inp.urlExc with _ | e2
    · rcases hn : inp.netExc with _ | e2
      · by_cases hs : inp.status = 200
        · rcases hw : inp.writeExc with _ | e2
          · exact ⟨rfl, rfl, hs, rfl⟩
          · rw [get_gibs_image_writeExc inp fs e2 hu hn hs hw] at h
            simp at h
        · rw [get_gibs_image_badStatus inp fs hu hn hs] at h
          simp at h
      · rw [get_gibs_image_netExc inp fs e2 hu hn] at h
        simp at h
    · rw [get_gibs_image_urlExc inp fs e2 hu] at h
      simp at h
  · rintro ⟨hu, hn, hs, hw⟩
    rw [get_gibs_image_success inp fs hu hn hw hs]

/-- C10 witness: a concrete non-200 run returns rather than raises. -/
theorem c10_no_exception_escape_witness :
    (get_gibs_image ⟨none, none, 404, [], none⟩ none).result ≠ PyResult.raises "boom" :=
  (c10_no_exception_escape ⟨none, none, 404, [], none⟩ none).2.1 "boom"

end SNMG
